import Mathlib

/-!
Shallow embedding of the `s3pi` package-index manager (src/s3pi/__init__.py)
and proofs about the claims of its specification.

Strings are modelled by Lean `String`; Python list/set operations are
modelled by Lean lists with explicit dedup-on-insert; the local filesystem
is modelled by an explicit association of paths to contents plus a list of
existing directories; S3 is modelled by an abstract existence predicate on
object keys. Fallible operations return `Except String`.
-/

namespace S3pi

/-- Python string slicing `s[n:]` (character based). -/
def pyDrop (s : String) (n : Nat) : String :=
  String.mk (s.data.drop n)

/-- Python `str.lower()` (ASCII case folding suffices for the inputs used here). -/
def pyLower (s : String) : String :=
  String.mk (s.data.map Char.toLower)

/-- Python `str.split(sep)` on a character separator, over the character list.
`''.split('-') == ['']`, so the empty list maps to `[[]]`. -/
def pySplit (sep : Char) : List Char → List (List Char)
  | [] => [[]]
  | c :: cs =>
    let r := pySplit sep cs
    if c = sep then [] :: r
    else (c :: r.headD []) :: r.tail

/-- Python `'/'.join(parts)`. -/
def joinKey : List String → String
  | [] => ""
  | [x] => x
  | x :: xs => x ++ "/" ++ joinKey xs

/-- Whether a path is absolute (starts with a slash), as `posixpath` sees it. -/
def isAbs (p : String) : Bool :=
  p.data.head? = some '/'

/-- Two-argument `os.path.join` with POSIX semantics: an absolute second
component discards the first component entirely. -/
def ospathJoin (a b : String) : String :=
  if isAbs b then b
  else if a = "" || a.data.getLast? = some '/' then a ++ b
  else a ++ "/" ++ b

/-- `ensure_ends_with_slash` from the source: append a `/` unless one is
already the last character. -/
def ensureEndsWithSlash (s : String) : String :=
  if s.data.getLast? = some '/' then s else s ++ "/"

/-- The package-name key as computed in `download_from_s3` (line 209):
`postfix.split('-')[0].lower()`. -/
def plannerPackageKey (fname : String) : String :=
  String.mk (((pySplit '-' fname.data).headD []).map Char.toLower)

/-- The package-name key as computed in `add_new_files_to_index` (line 140):
`filename.split('-')[0].lower()`. -/
def mutatorPackageKey (filename : String) : String :=
  String.mk (((pySplit '-' filename.data).headD []).map Char.toLower)

/-- Modelled from the spec's words, for comparison with the code's derivation:
the substring of the filename before the first `-` character, lowercased. -/
def specPackageKey (f : String) : String :=
  String.mk ((f.data.takeWhile (fun c => !(c == '-'))).map Char.toLower)

/-- Python set insertion, modelled on lists: add only if not yet present
(insertion order kept deterministic). -/
def setAdd (s : List String) (x : String) : List String :=
  if x ∈ s then s else s ++ [x]

/-- Result of the Strategy B planning phase of `download_from_s3`
(lines 195-237): the `new_index_files` markers, the `download_files`
set, and the trace of per-package `get_key` existence checks performed
after the root-index check. -/
structure PlanResult where
  newIndexFiles : List String
  downloadFiles : List String
  pkgChecks : List String
deriving DecidableEq

/-- One iteration of the planning loop over the incoming package directory
(lines 208-234 of `download_from_s3`). `remote k = true` models
`s3_bucket.get_key(k)` returning a key object. -/
def planStep (remote : String → Bool) (pfxS : String) (acc : PlanResult)
    (fname : String) : PlanResult :=
  let spd := plannerPackageKey fname
  let kIdx := joinKey [pfxS, spd, "index.html"]
  let acc1 : PlanResult := { acc with pkgChecks := acc.pkgChecks ++ [kIdx] }
  if !(remote kIdx) then
    { acc1 with
        newIndexFiles :=
          setAdd (setAdd acc1.newIndexFiles "index.html") (spd ++ "/index.html"),
        downloadFiles := setAdd acc1.downloadFiles "index.html" }
  else
    let kFile := joinKey [pfxS, spd, fname]
    let acc2 : PlanResult := { acc1 with pkgChecks := acc1.pkgChecks ++ [kFile] }
    if !(remote kFile) then
      { acc2 with
          newIndexFiles := setAdd acc2.newIndexFiles (spd ++ "/index.html"),
          downloadFiles := setAdd acc2.downloadFiles (spd ++ "/index.html") }
    else acc2

/-- The planning phase of `download_from_s3` (lines 191-237): compute the
slashed prefix, check the remote root index, either return the `*` sentinel
immediately or fold over the incoming filenames. -/
def downloadFromS3Plan (remote : String → Bool) (pfxSetting : String)
    (incoming : List String) : PlanResult :=
  let pfxS := ensureEndsWithSlash pfxSetting
  if !(remote (joinKey [pfxS, "index.html"])) then
    { newIndexFiles := ["*"], downloadFiles := [], pkgChecks := [] }
  else
    incoming.foldl (planStep remote pfxS) ⟨[], [], []⟩

/-- The local target paths of the fetch loop of `download_from_s3`
(lines 245-256): for each scheduled download `f`, the key name is
`'/'.join((s3_prefix, f))` and the local file is
`os.path.join(directory, key.name[len(s3_prefix):])`. -/
def fetchLocalPaths (directory pfxSetting : String)
    (downloadFiles : List String) : List String :=
  let pfxS := ensureEndsWithSlash pfxSetting
  downloadFiles.map (fun f =>
    ospathJoin directory (pyDrop (joinKey [pfxS, f]) pfxS.length))

/-- A local filesystem: contents of regular files, and the set of existing
directories (both keyed by absolute path). -/
structure Fs where
  files : List (String × String)
  dirs : List String
deriving DecidableEq

/-- Write a file (`open(p, 'w')` followed by writing `content`): any previous
entry for the path is replaced. -/
def writeFile (fs : Fs) (p content : String) : Fs :=
  { fs with files := (p, content) :: fs.files.filter (fun e => e.1 != p) }

/-- Append to a file (`open(p, 'a')`): the file is created empty first when
absent. -/
def appendFile (fs : Fs) (p content : String) : Fs :=
  writeFile fs p (((List.lookup p fs.files).getD "") ++ content)

/-- Whether path `p` names a direct child of `dir` (used to model
`os.listdir`): `p = dir ++ "/" ++ name` with a nonempty slash-free name. -/
def isChildOf (dir p : String) : Bool :=
  (p.data.take (dir.data.length + 1) == dir.data ++ ['/']) &&
  decide (0 < (p.data.drop (dir.data.length + 1)).length) &&
  !((p.data.drop (dir.data.length + 1)).contains '/')

/-- The subdirectory names seen by the `os.listdir`/`os.path.isdir` loop of
`create_index` (lines 55-57): names of directories directly under `dir`. -/
def listSubdirs (fs : Fs) (dir : String) : List String :=
  (fs.dirs.filter (fun d => isChildOf dir d)).map (fun d => pyDrop d (dir.length + 1))

/-- The fixed header written by `create_index` for a root page (lines 46-54). -/
def rootHeader : String :=
  "<!DOCTYPE html>\n<html>\n  <head>\n    <title>Simple Index</title>\n" ++
  "    <meta name=\"api-version\" value=\"2\" />\n  </head>\n  <body>\n"

/-- The fixed footer written by `create_index` for a root page (lines 63-66). -/
def rootFooter : String :=
  "  </body>\n</html>\n"

/-- One link-plus-break block of the root page body (lines 58-62). -/
def rootEntry (name : String) : String :=
  "    <a href=\"" ++ name ++ "/\">" ++ name ++ "</a>\n" ++ "    <br />\n"

/-- The complete root `index.html` text for a given subdirectory listing. -/
def renderRootIndex (names : List String) : String :=
  rootHeader ++ String.join (names.map rootEntry) ++ rootFooter

/-- The link-plus-break block appended to a package page (lines 69-72). -/
def packageEntry (filename : String) : String :=
  "<a href=\"" ++ filename ++ "\">" ++ filename ++ "</a>\n" ++ "<br />\n"

/-- `create_index(directory, filename='', root=False)` (lines 41-75): in root
mode, overwrite `directory/index.html` with the full rendering of the current
subdirectory listing; otherwise, with a filename, append one link to
`directory/index.html`; otherwise do nothing and return `None`. Returns the
new filesystem and the value returned by the Python function. -/
def create_index (fs : Fs) (directory filename : String) (root : Bool) :
    Fs × Option String :=
  let index := ospathJoin directory "index.html"
  if root then
    (writeFile fs index (renderRootIndex (listSubdirs fs directory)), some index)
  else if filename != "" then
    (appendFile fs index (packageEntry filename), some index)
  else
    (fs, none)

/-- `os.makedirs(p)` without `exist_ok`: raises `FileExistsError` when the
directory already exists. -/
def makedirs (fs : Fs) (p : String) : Except String Fs :=
  if p ∈ fs.dirs then Except.error "FileExistsError"
  else Except.ok { fs with dirs := p :: fs.dirs }

/-- `shutil.copy2(src, dst)`: when `dst` is an existing directory the file is
copied into it under the source's base name; otherwise it is written at `dst`
itself. Returns the new filesystem and the destination path (the Python
return value). `srcName` is the base name of the source file and `content`
its content. -/
def copy2 (fs : Fs) (srcName content dst : String) : Fs × String :=
  let dest := if dst ∈ fs.dirs then ospathJoin dst srcName else dst
  (writeFile fs dest content, dest)

/-- `x ∈ s` for a Python value that may be `None` (as `new_index_files` is
after a failed `download_from_s3`): membership on `None` raises `TypeError`. -/
def pyMem (x : String) (s : Option (List String)) : Except String Bool :=
  match s with
  | none => Except.error "TypeError: argument of type NoneType is not iterable"
  | some l => Except.ok (decide (x ∈ l))

/-- Python `set.add` of an `Optional` value followed by the final
`discard(None)` (line 170): `None` contributes nothing. -/
def setAddOpt (s : List String) (x : Option String) : List String :=
  match x with
  | none => s
  | some v => setAdd s v

/-- The body of the `for filename in os.listdir(package_directory)` loop of
`add_new_files_to_index` (lines 130-169), for one directory entry
`(name, isRegularFile)`. The state is the filesystem plus the
`modified_files` accumulator. -/
def mutStep (markers : Option (List String)) (temp : String)
    (st : Fs × List String) (entry : String × Bool) :
    Except String (Fs × List String) := do
  if entry.2 = false then
    return st
  let filename := entry.1
  let spd := ospathJoin temp (mutatorPackageKey filename)
  let b1 ← pyMem "*" markers
  let b2 ← pyMem "index.html" markers
  let st1 ←
    if b1 || b2 then do
      let fs1 ← makedirs st.1 spd
      let r := create_index fs1 temp "" true
      pure (r.1, setAddOpt st.2 r.2)
    else
      pure st
  let c := copy2 st1.1 filename filename spd
  let st2 := (c.1, setAdd st1.2 c.2)
  let b3 ← pyMem "*" markers
  let b4 ← pyMem (spd ++ "/index.html") markers
  if b3 || b4 then
    let r := create_index st2.1 spd filename false
    return (r.1, setAddOpt st2.2 r.2)
  else
    return st2

/-- The loop of `add_new_files_to_index`, with the Python exception
semantics: the first raised error aborts the whole run. -/
def runMutator (markers : Option (List String)) (temp : String) :
    Fs × List String → List (String × Bool) → Except String (Fs × List String)
  | st, [] => Except.ok st
  | st, e :: rest =>
    match mutStep markers temp st e with
    | Except.error msg => Except.error msg
    | Except.ok st2 => runMutator markers temp st2 rest

/-- `add_new_files_to_index(new_index_files, package_directory, temp_directory)`
(lines 122-171): fold the loop body over the incoming directory entries,
starting from an empty `modified_files` set. The incoming directory is given
as a listing of `(name, isRegularFile)` entries. -/
def add_new_files_to_index (markers : Option (List String))
    (incoming : List (String × Bool)) (temp : String) (fs : Fs) :
    Except String (Fs × List String) :=
  runMutator markers temp (fs, []) incoming

/-- Remote side effects of the upload phase, in order. -/
inductive S3Action where
  | upload : String → String → S3Action
  | setAcl : String → String → S3Action
deriving DecidableEq

/-- The remote key built in `upload_to_s3` (lines 303-309):
`'/'.join((s3_prefix, modified_file[len(directory)+1:]))`. -/
def uploadKeyFor (directory pfxS f : String) : String :=
  joinKey [pfxS, pyDrop f (directory.length + 1)]

/-- `upload_to_s3(directory, settings, modified_files)` (lines 282-319),
as the sequence of remote actions its loop performs: for each modified file,
a `set_contents_from_filename` upload under the built key, immediately
followed by `set_acl('public-read')` on that key. -/
def upload_to_s3 (directory pfxSetting : String) (modified : List String) :
    List S3Action :=
  let pfxS := ensureEndsWithSlash pfxSetting
  modified.foldl
    (fun acts f =>
      acts ++ [S3Action.upload (uploadKeyFor directory pfxS f) f,
               S3Action.setAcl (uploadKeyFor directory pfxS f) "public-read"])
    []

/-- Outcome of the whole `download_from_s3` call (lines 174-279) as `main`
sees it: the returned value (`None` when `NoAuthHandlerFound` was raised and
only logged, because the function then falls off its end), and whether a
critical log line was emitted. -/
structure DownloadOutcome where
  newIndexFiles : Option (List String)
  criticalLogged : Bool
deriving DecidableEq

/-- `download_from_s3` including its connection handling (lines 184-190):
on an auth failure the error is logged at critical severity and the function
returns `None`; otherwise it returns the planner's `new_index_files`. -/
def download_from_s3 (authOk : Bool) (remote : String → Bool)
    (pfxSetting : String) (incoming : List String) : DownloadOutcome :=
  if authOk then
    { newIndexFiles := some (downloadFromS3Plan remote pfxSetting incoming).newIndexFiles,
      criticalLogged := false }
  else
    { newIndexFiles := none, criticalLogged := true }

/-- The step of `main` (lines 378-383) that passes the value returned by
`download_from_s3` straight into `add_new_files_to_index`. -/
def mainMutatePhase (outcome : DownloadOutcome)
    (incoming : List (String × Bool)) (temp : String) (fs : Fs) :
    Except String (Fs × List String) :=
  add_new_files_to_index outcome.newIndexFiles incoming temp fs

/-- Staging tree for the claim C3 scenario: the planner has (conceptually)
downloaded the remote `bar` package page; `bar/bar-2.0.whl` is absent. -/
def c3StagingFs : Fs :=
  { files := [("/t/bar/index.html", "PAGE"), ("/t/index.html", "ROOT")],
    dirs := ["/t", "/t/bar"] }

/-- The filesystem `add_new_files_to_index` produces in the claim C3
scenario: the wheel was copied, the package page content is unchanged. -/
def c3ResultFs : Fs :=
  { files := [("/t/bar/bar-2.0.whl", "bar-2.0.whl"),
              ("/t/bar/index.html", "PAGE"), ("/t/index.html", "ROOT")],
    dirs := ["/t", "/t/bar"] }

theorem pySplit_headD (sep : Char) :
    ∀ l : List Char, (pySplit sep l).headD [] = l.takeWhile (fun c => !(c == sep))
  | [] => rfl
  | c :: cs => by
    by_cases h : c = sep
    · simp [pySplit, List.takeWhile_cons, h]
    · have hb : (c == sep) = false := by simpa using h
      simp [pySplit, List.takeWhile_cons, h, hb]
      simpa using pySplit_headD sep cs

/-- Claim C5: the package-name key of a filename is the substring before the
first `-`, lowercased; with no `-` the whole filename is lowercased (total, no
exception); the derivation is deterministic and the planner (line 209) and the
mutator (line 140) compute the same function; `packageKey "foo-1.0.whl" = "foo"`
and `packageKey "nodashname" = "nodashname"`. -/
theorem packageKey_deterministic_and_shared :
    (∀ f, plannerPackageKey f = mutatorPackageKey f) ∧
    (∀ f, plannerPackageKey f = specPackageKey f) ∧
    (∀ f : String, ('-' : Char) ∉ f.data → plannerPackageKey f = pyLower f) ∧
    plannerPackageKey "foo-1.0.whl" = "foo" ∧
    plannerPackageKey "nodashname" = "nodashname" := by
  refine ⟨fun f => rfl, fun f => ?_, fun f h => ?_, by decide, by decide⟩
  · rw [plannerPackageKey, specPackageKey, pySplit_headD]
  · have hall : ∀ c ∈ f.data, (fun c => !(c == '-')) c = true := by
      intro c hc
      simp only [Bool.not_eq_true', beq_eq_false_iff_ne]
      intro hdash
      exact h (hdash ▸ hc)
    rw [plannerPackageKey, pyLower, pySplit_headD, List.takeWhile_eq_self_iff.mpr hall]

/-- Witness for C5 at concrete input: `"nodashname"` has no dash and its key is
the whole name lowercased. -/
theorem packageKey_deterministic_and_shared_witness :
    ('-' : Char) ∉ ("nodashname" : String).data ∧
    plannerPackageKey "nodashname" = pyLower "nodashname" :=
  ⟨by decide, packageKey_deterministic_and_shared.2.2.1 "nodashname" (by decide)⟩

/-- Claim C4: when the remote root index object does not exist, the planner
returns exactly the `*` full-rebuild sentinel, schedules no downloads, and
performs no per-package existence checks, for every incoming file list. -/
theorem planner_missing_root_returns_sentinel
    (remote : String → Bool) (pfxSetting : String) (incoming : List String)
    (h : remote (joinKey [ensureEndsWithSlash pfxSetting, "index.html"]) = false) :
    downloadFromS3Plan remote pfxSetting incoming =
      { newIndexFiles := ["*"], downloadFiles := [], pkgChecks := [] } := by
  simp [downloadFromS3Plan, h]

/-- Witness for C4: a remote with no objects at all, prefix `simple`, one
incoming file. -/
theorem planner_missing_root_returns_sentinel_witness :
    (fun _ : String => false) (joinKey [ensureEndsWithSlash "simple", "index.html"]) = false ∧
    downloadFromS3Plan (fun _ => false) "simple" ["foo-1.0.whl"] =
      { newIndexFiles := ["*"], downloadFiles := [], pkgChecks := [] } :=
  ⟨rfl, planner_missing_root_returns_sentinel (fun _ => false) "simple" ["foo-1.0.whl"] rfl⟩

/-- Claim C1: with the remote root index present, the remote page
`bar/index.html` present, and the remote object `bar/bar-2.0.whl` absent,
planning for the single incoming file `bar-2.0.whl` schedules exactly the
download of the package page `bar/index.html` and not the root index. -/
theorem planner_existing_page_missing_file_schedules_only_package_page
    (remote : String → Bool) (pfxSetting : String)
    (hRoot : remote (joinKey [ensureEndsWithSlash pfxSetting, "index.html"]) = true)
    (hPage : remote (joinKey [ensureEndsWithSlash pfxSetting, "bar", "index.html"]) = true)
    (hFile : remote (joinKey [ensureEndsWithSlash pfxSetting, "bar", "bar-2.0.whl"]) = false) :
    (downloadFromS3Plan remote pfxSetting ["bar-2.0.whl"]).downloadFiles
        = ["bar/index.html"] ∧
    "index.html" ∉ (downloadFromS3Plan remote pfxSetting ["bar-2.0.whl"]).downloadFiles := by
  have hkey : plannerPackageKey "bar-2.0.whl" = "bar" := by decide
  constructor
  · simp [downloadFromS3Plan, planStep, hkey, hRoot, hPage, hFile, setAdd]
  · simp [downloadFromS3Plan, planStep, hkey, hRoot, hPage, hFile, setAdd]

/-- Witness for C1: a concrete remote holding exactly the root index and the
`bar` package page under prefix `simple`. -/
theorem planner_existing_page_missing_file_schedules_only_package_page_witness :
    (fun k => k == "simple//index.html" || k == "simple//bar/index.html")
        (joinKey [ensureEndsWithSlash "simple", "index.html"]) = true ∧
    (fun k => k == "simple//index.html" || k == "simple//bar/index.html")
        (joinKey [ensureEndsWithSlash "simple", "bar", "index.html"]) = true ∧
    (fun k => k == "simple//index.html" || k == "simple//bar/index.html")
        (joinKey [ensureEndsWithSlash "simple", "bar", "bar-2.0.whl"]) = false ∧
    ((downloadFromS3Plan
        (fun k => k == "simple//index.html" || k == "simple//bar/index.html")
        "simple" ["bar-2.0.whl"]).downloadFiles = ["bar/index.html"] ∧
      "index.html" ∉ (downloadFromS3Plan
        (fun k => k == "simple//index.html" || k == "simple//bar/index.html")
        "simple" ["bar-2.0.whl"]).downloadFiles) :=
  ⟨by decide, by decide, by decide,
    planner_existing_page_missing_file_schedules_only_package_page
      (fun k => k == "simple//index.html" || k == "simple//bar/index.html")
      "simple" (by decide) (by decide) (by decide)⟩

/-- Claim C2 is false of the code: because the key is built as
`'/'.join((s3_prefix, f))` with `s3_prefix` already ending in `/`, the slice
`key.name[len(s3_prefix):]` keeps a leading `/`, and `os.path.join` then
discards the staging root entirely. For the staging root `/tmp/stage`,
prefix `simple` and scheduled download `bar/index.html`, the code writes to
`/bar/index.html`, not to the in-tree path `/tmp/stage/bar/index.html`. -/
theorem download_local_path_escapes_staging_tree :
    fetchLocalPaths "/tmp/stage" "simple" ["bar/index.html"] = ["/bar/index.html"] ∧
    ospathJoin "/tmp/stage" "bar/index.html" = "/tmp/stage/bar/index.html" ∧
    ("/bar/index.html" : String) ≠ "/tmp/stage/bar/index.html" := by
  refine ⟨by decide, by decide, by decide⟩

theorem lookup_writeFile_self (fs : Fs) (p c : String) :
    List.lookup p (writeFile fs p c).files = some c := by
  simp [writeFile, List.lookup]

theorem listSubdirs_writeFile (fs : Fs) (p c d : String) :
    listSubdirs (writeFile fs p c) d = listSubdirs fs d := rfl

/-- Claim C6: root index regeneration is a full overwrite and is idempotent:
the content written is a function of the subdirectory listing alone
(independent of any previous content of `index.html`), and rendering twice
from the same listing leaves byte-identical content. -/
theorem root_index_regeneration_idempotent_overwrite (fs : Fs) (d prev : String) :
    List.lookup (ospathJoin d "index.html") ((create_index fs d "" true).1).files
      = some (renderRootIndex (listSubdirs fs d)) ∧
    List.lookup (ospathJoin d "index.html")
        ((create_index (create_index fs d "" true).1 d "" true).1).files
      = List.lookup (ospathJoin d "index.html") ((create_index fs d "" true).1).files ∧
    List.lookup (ospathJoin d "index.html")
        ((create_index (writeFile fs (ospathJoin d "index.html") prev) d "" true).1).files
      = List.lookup (ospathJoin d "index.html") ((create_index fs d "" true).1).files := by
  refine ⟨?_, ?_, ?_⟩ <;>
    simp [create_index, lookup_writeFile_self, listSubdirs_writeFile]

theorem mutStep_not_file (markers : Option (List String)) (temp : String)
    (st : Fs × List String) (entry : String × Bool) (h : entry.2 = false) :
    mutStep markers temp st entry = Except.ok st := by
  simp [mutStep, h, pure, Except.pure]

theorem runMutator_filter (markers : Option (List String)) (temp : String) :
    ∀ (l : List (String × Bool)) (st : Fs × List String),
      runMutator markers temp st l
        = runMutator markers temp st (l.filter (fun e => e.2))
  | [], _ => rfl
  | e :: rest, st => by
    by_cases h : e.2 = true
    · rw [List.filter_cons]
      simp only [h, if_true]
      show runMutator markers temp st (e :: rest)
          = runMutator markers temp st (e :: rest.filter (fun e => e.2))
      rw [runMutator, runMutator]
      cases mutStep markers temp st e with
      | error msg => rfl
      | ok st2 => exact runMutator_filter markers temp rest st2
    · have hf : e.2 = false := by simpa using h
      rw [List.filter_cons]
      simp only [hf, Bool.false_eq_true, if_false]
      rw [runMutator, mutStep_not_file markers temp st e hf]
      exact runMutator_filter markers temp rest st

/-- Claim C10: incoming directory entries that are not regular files are
ignored completely by the mutator: the run is identical to one on the
listing restricted to regular files (no copy, no key derivation, no index
mutation, no modified-set entry on their account). -/
theorem mutator_ignores_non_files (markers : Option (List String))
    (incoming : List (String × Bool)) (temp : String) (fs : Fs) :
    add_new_files_to_index markers incoming temp fs
      = add_new_files_to_index markers (incoming.filter (fun e => e.2)) temp fs :=
  runMutator_filter markers temp incoming (fs, [])

/-- Claim C7 is false of the code: directory creation is guarded by the
`new_index_files` markers, not by the directory's existence, and
`os.makedirs` is called without `exist_ok`. With the `*` sentinel set and two
incoming files of the same package, the second iteration raises
`FileExistsError`. -/
theorem mutator_duplicate_key_makedirs_error :
    add_new_files_to_index (some ["*"])
        [("foo-1.0.whl", true), ("foo-2.0.whl", true)] "/t"
        { files := [], dirs := ["/t"] }
      = Except.error "FileExistsError" := by
  rfl

/-- Claim C3 is false of the code: the append guard compares the absolute
path `{temp}/bar/index.html` with the planner's relative marker
`bar/index.html`, which can never match. In the scenario where the planner
marked `bar/index.html` and the destination file did not exist before the
copy, the package page gains no link and is not recorded as modified; the
modified set holds only the copied file. -/
theorem mutator_skips_append_for_planner_marked_page :
    List.lookup "/t/bar/bar-2.0.whl" c3StagingFs.files = none ∧
    add_new_files_to_index (some ["bar/index.html"]) [("bar-2.0.whl", true)]
        "/t" c3StagingFs
      = Except.ok (c3ResultFs, ["/t/bar/bar-2.0.whl"]) ∧
    List.lookup "/t/bar/index.html" c3ResultFs.files = some "PAGE" ∧
    "/t/bar/index.html" ∉ ["/t/bar/bar-2.0.whl"] := by
  refine ⟨by decide, by rfl, by decide, by decide⟩

theorem foldl_append_pair (g : String → List S3Action) :
    ∀ (l : List String) (init : List S3Action),
      l.foldl (fun acts f => acts ++ g f) init = init ++ l.flatMap g
  | [], init => by simp
  | f :: rest, init => by
    rw [List.foldl_cons, foldl_append_pair g rest (init ++ g f)]
    simp [List.flatMap]

/-- Claim C9: the upload phase performs, for each file of the modified set
and for no other file, one upload of that file under the key built from the
prefix and the file's staging-relative path, immediately followed by setting
that object's ACL to public-read; and an upload action occurs for a
key-file pair exactly when the file is modified and the key is the one so
built. -/
theorem upload_exactly_modified_with_public_read
    (directory pfxSetting : String) (modified : List String) :
    upload_to_s3 directory pfxSetting modified
      = modified.flatMap (fun f =>
          [S3Action.upload (uploadKeyFor directory (ensureEndsWithSlash pfxSetting) f) f,
           S3Action.setAcl (uploadKeyFor directory (ensureEndsWithSlash pfxSetting) f)
             "public-read"]) ∧
    ∀ k f, S3Action.upload k f ∈ upload_to_s3 directory pfxSetting modified ↔
      (f ∈ modified ∧ k = uploadKeyFor directory (ensureEndsWithSlash pfxSetting) f) := by
  have hmain : upload_to_s3 directory pfxSetting modified
      = modified.flatMap (fun f =>
          [S3Action.upload (uploadKeyFor directory (ensureEndsWithSlash pfxSetting) f) f,
           S3Action.setAcl (uploadKeyFor directory (ensureEndsWithSlash pfxSetting) f)
             "public-read"]) := by
    rw [upload_to_s3]
    rw [foldl_append_pair]
    simp
  refine ⟨hmain, fun k f => ?_⟩
  rw [hmain]
  simp only [List.mem_flatMap, List.mem_cons, List.mem_singleton]
  constructor
  · rintro ⟨a, ha, hmem | hmem | hmem⟩
    · obtain ⟨hk, hf⟩ := S3Action.upload.inj hmem.symm
      exact ⟨hf.symm ▸ ha, hk.symm ▸ (hf ▸ rfl)⟩
    · cases hmem
    · cases hmem
  · rintro ⟨hf, hk⟩
    exact ⟨f, hf, Or.inl (by rw [hk])⟩

/-- Claim C8 is false of the code: on a missing-credentials failure
(`NoAuthHandlerFound`), `download_from_s3` logs at critical severity and then
falls off its end, returning `None`; `main` passes that `None` into
`add_new_files_to_index`, whose first membership test `'*' in None` raises an
undistinguished `TypeError` — the run neither fails with a distinguished
remote-unavailable error nor proceeds with local-only index maintenance. -/
theorem auth_failure_returns_none_then_type_error :
    (download_from_s3 false (fun _ => false) "simple" ["foo-1.0.whl"]).criticalLogged
        = true ∧
    (download_from_s3 false (fun _ => false) "simple" ["foo-1.0.whl"]).newIndexFiles
        = none ∧
    mainMutatePhase (download_from_s3 false (fun _ => false) "simple" ["foo-1.0.whl"])
        [("foo-1.0.whl", true)] "/t" { files := [], dirs := ["/t"] }
      = Except.error "TypeError: argument of type NoneType is not iterable" := by
  refine ⟨rfl, rfl, rfl⟩

end S3pi
